import Mathlib

/-!
Shallow embedding of the `Navbar` component found in `src/app/page.tsx` of the
nextjs-navbar-gallery repository, together with proofs about its behaviour.

The component is a single-file React view.  Its interactive logic consists of
four custom hooks (`useScrollState`, `useLockBodyScroll`, `useScrollSpy`,
`useFocusTrap`) and a handful of handlers inside the `Navbar` component
(`handleLinkClick`, `closeMenu`, the Escape-key effect, the route-tracking
effect).  Each of those is embedded below as a pure Lean function over an
explicit state; browser state (the body style, the DOM, focus) is passed
explicitly.  Numbers that are JavaScript floats (scroll positions, durations,
logo scales) are modelled as rationals.
-/

namespace NavbarGallery

/-- `type NavSide = "left" | "right" | "top" | "bottom"` (page.tsx line 9). -/
inductive NavSide where
  | left
  | right
  | top
  | bottom
deriving Repr, DecidableEq

/-- `interface ResponsiveWidth` (page.tsx lines 11-15); all fields optional. -/
structure ResponsiveWidth where
  base : Option String := none
  md : Option String := none
  lg : Option String := none
deriving Repr, DecidableEq

/-- The `width` config field is `string | ResponsiveWidth` (page.tsx line 30). -/
inductive NavWidth where
  | str (s : String)
  | responsive (r : ResponsiveWidth)
deriving Repr, DecidableEq

/-- `interface LogoScale { initial: number; scrolled: number }` (lines 17-20). -/
structure LogoScale where
  initial : ℚ
  scrolled : ℚ
deriving Repr, DecidableEq

/-- `interface NavLink { id; label; href }` (page.tsx lines 22-26). -/
structure NavLink where
  id : String
  label : String
  href : String
deriving Repr, DecidableEq

/-- `mobileBreakpoint?: "sm" | "md" | "lg"` (page.tsx line 41). -/
inductive Breakpoint where
  | sm
  | md
  | lg
deriving Repr, DecidableEq

/-- `export interface NavbarConfig` (page.tsx lines 28-42): every field
optional; `none` means the caller omitted it. -/
structure NavbarConfig where
  side : Option NavSide := none
  width : Option NavWidth := none
  initialBg : Option String := none
  scrolledBg : Option String := none
  scrollThreshold : Option ℚ := none
  logoScale : Option LogoScale := none
  closeOnRouteChange : Option Bool := none
  trapFocus : Option Bool := none
  disableBodyScrollOnOpen : Option Bool := none
  ariaLabel : Option String := none
  animateDuration : Option ℚ := none
  enableScrollSpy : Option Bool := none
  mobileBreakpoint : Option Breakpoint := none
deriving Repr, DecidableEq

/-- The configuration after the default destructuring at the top of `Navbar`
(page.tsx lines 180-194): every field present. -/
structure ResolvedConfig where
  side : NavSide
  width : NavWidth
  initialBg : String
  scrolledBg : String
  scrollThreshold : ℚ
  logoScale : LogoScale
  closeOnRouteChange : Bool
  trapFocus : Bool
  disableBodyScrollOnOpen : Bool
  ariaLabel : String
  animateDuration : ℚ
  enableScrollSpy : Bool
  mobileBreakpoint : Breakpoint
deriving Repr, DecidableEq

/-- Default-filling destructuring of the config bag (page.tsx lines 180-194). -/
def NavbarConfig.resolve (c : NavbarConfig) : ResolvedConfig where
  side := c.side.getD NavSide.right
  width := c.width.getD (NavWidth.responsive
    { base := some "100vw", md := some "80vw", lg := some "50vw" })
  initialBg := c.initialBg.getD "transparent"
  scrolledBg := c.scrolledBg.getD "bg-white/95 shadow-md"
  scrollThreshold := c.scrollThreshold.getD 20
  logoScale := c.logoScale.getD { initial := 1, scrolled := 92 / 100 }
  closeOnRouteChange := c.closeOnRouteChange.getD true
  trapFocus := c.trapFocus.getD true
  disableBodyScrollOnOpen := c.disableBodyScrollOnOpen.getD true
  ariaLabel := c.ariaLabel.getD "Main navigation"
  animateDuration := c.animateDuration.getD 300
  enableScrollSpy := c.enableScrollSpy.getD false
  mobileBreakpoint := c.mobileBreakpoint.getD Breakpoint.md

/-- The fully defaulted configuration: `Navbar` with `config = {}`. -/
def resolvedDefault : ResolvedConfig := NavbarConfig.resolve {}

/-! ## useScrollState (page.tsx lines 56-70) -/

/-- The scroll handler body: `setIsScrolled(window.scrollY > threshold)`
(page.tsx line 61).  The hook's returned flag after any scroll event at
position `scrollY` is exactly this value; the comparison is strict. -/
def useScrollState (scrollY : ℚ) (threshold : ℚ := 20) : Bool :=
  decide (scrollY > threshold)

/-- The navbar styling decided by the scroll flag: the background class
(line 298), the vertical paddings (lines 314-315) and the logo scale
(line 301). -/
structure NavbarVisual where
  bgClass : String
  paddingTop : String
  paddingBottom : String
  logoScale : ℚ
deriving Repr, DecidableEq

/-- The preset rendered while `isScrolled` is true. -/
def scrolledVisual (cfg : ResolvedConfig) : NavbarVisual where
  bgClass := cfg.scrolledBg
  paddingTop := "0.75rem"
  paddingBottom := "0.75rem"
  logoScale := cfg.logoScale.scrolled

/-- The preset rendered while `isScrolled` is false. -/
def initialVisual (cfg : ResolvedConfig) : NavbarVisual where
  bgClass := cfg.initialBg
  paddingTop := "1.25rem"
  paddingBottom := "1.25rem"
  logoScale := cfg.logoScale.initial

/-- The visual state of the top bar as a function of the scroll position:
`bgClass`, the animated paddings and `currentLogoScale` all branch on the
same `isScrolled` flag (page.tsx lines 298, 301, 314-315). -/
def navbarVisual (cfg : ResolvedConfig) (scrollY : ℚ) : NavbarVisual :=
  if useScrollState scrollY cfg.scrollThreshold then scrolledVisual cfg
  else initialVisual cfg

/-! ## useLockBodyScroll (page.tsx lines 73-91) -/

/-- The inline style of `document.body`: the two properties the lock touches,
plus all the others, carried opaquely. -/
structure BodyStyle where
  overflow : String
  paddingRight : String
  others : List (String × String)
deriving Repr, DecidableEq

/-- The values captured before mutating the body (page.tsx lines 77-78). -/
structure SavedBodyStyle where
  originalOverflow : String
  originalPaddingRight : String
deriving Repr, DecidableEq

/-- Whether the lock is requested: the hook is called with
`isOpen && disableBodyScrollOnOpen` (page.tsx line 211). -/
def bodyLockRequested (disableBodyScrollOnOpen isOpen : Bool) : Bool :=
  isOpen && disableBodyScrollOnOpen

/-- The effect body of `useLockBodyScroll` (page.tsx lines 74-85): when `lock`
is false it returns immediately; otherwise it captures the current overflow
and right padding, computes the scrollbar width from
`window.innerWidth - document.documentElement.clientWidth` and mutates the two
properties.  Returns the mutated body style and the captured values (the
latter is `none` when no cleanup was registered). -/
def useLockBodyScroll (lock : Bool) (b : BodyStyle)
    (innerWidth clientWidth : Int) : BodyStyle × Option SavedBodyStyle :=
  if lock then
    let saved : SavedBodyStyle :=
      { originalOverflow := b.overflow, originalPaddingRight := b.paddingRight }
    let scrollbarWidth : Int := innerWidth - clientWidth
    ({ b with
        overflow := "hidden"
        paddingRight := toString scrollbarWidth ++ "px" }, some saved)
  else (b, none)

/-- The cleanup of `useLockBodyScroll` (page.tsx lines 86-89), run when the
panel closes or the component unmounts: restores the two captured properties;
when the effect bailed out (`saved = none`) no cleanup was registered. -/
def lockCleanup (saved : Option SavedBodyStyle) (b : BodyStyle) : BodyStyle :=
  match saved with
  | none => b
  | some s =>
      { b with
          overflow := s.originalOverflow
          paddingRight := s.originalPaddingRight }

/-! ## useScrollSpy (page.tsx lines 94-125) -/

/-- `useState<string>("")` in `useScrollSpy` (page.tsx line 95). -/
def scrollSpyInitialId : String := ""

/-- One invocation of an intersection-observer callback for the observer
watching `targetId`: `entry = none` models `entries[0]` being undefined,
`entry = some b` an entry with `isIntersecting = b`. -/
structure SpyReport where
  targetId : String
  entry : Option Bool
deriving Repr, DecidableEq

/-- The observer callback body (page.tsx lines 105-111): an absent entry is
ignored, an intersecting entry sets the active id to the observed target,
a non-intersecting entry changes nothing. -/
def spyStep (activeId : String) (r : SpyReport) : String :=
  match r.entry with
  | none => activeId
  | some intersecting => if intersecting then r.targetId else activeId

/-- The active id after a sequence of observer reports, starting from
`activeId`. -/
def runSpy (activeId : String) (rs : List SpyReport) : String :=
  rs.foldl spyStep activeId

/-- The target of the last report whose entry was intersecting, if any. -/
def lastHit : List SpyReport → Option String
  | [] => none
  | r :: rs =>
      match lastHit rs with
      | some id => some id
      | none => if r.entry = some true then some r.targetId else none

/-! ## useFocusTrap (page.tsx lines 129-167) -/

/-- A DOM element inside the panel, with the attributes the focusable-element
selector inspects.  `ref` stands for the element's identity, so that equality
of the model matches reference equality (`===`) of distinct DOM nodes. -/
structure DomElement where
  ref : ℕ
  tag : String
  href : Option String := none
  disabled : Bool := false
  tabindex : Option Int := none
deriving Repr, DecidableEq

/-- The selector
`a[href], button:not([disabled]), textarea, input, select,
[tabindex]:not([tabindex="-1"])` (page.tsx lines 139-141), as a predicate on
one element. -/
def isFocusable (el : DomElement) : Bool :=
  (el.tag == "a" && el.href.isSome)
    || (el.tag == "button" && !el.disabled)
    || el.tag == "textarea"
    || el.tag == "input"
    || el.tag == "select"
    || (el.tabindex.isSome && el.tabindex != some (-1))

/-- `container.querySelectorAll(...)` restricted to the panel's children, in
document order. -/
def focusableIn (els : List DomElement) : List DomElement :=
  els.filter isFocusable

/-- `firstElement?.focus()` when the trap effect runs on open (page.tsx
line 163): the element focus moves to, if any. -/
def openFocus (els : List DomElement) : Option DomElement :=
  (focusableIn els).head?

/-- Outcome of one keydown seen by the trap handler: whether
`e.preventDefault()` was called and which element `.focus()` was called on. -/
structure TabResult where
  prevented : Bool
  focusTo : Option DomElement
deriving Repr, DecidableEq

/-- The `handleTab` keydown handler (page.tsx lines 146-160).  `active` is
`document.activeElement` (`none` for null).  Non-Tab keys return early;
Shift+Tab on the first focusable element is prevented and focuses the last
one, plain Tab on the last focusable element is prevented and focuses the
first; every other case is left to the browser default. -/
def handleTab (els : List DomElement) (active : Option DomElement)
    (key : String) (shift : Bool) : TabResult :=
  if key ≠ "Tab" then { prevented := false, focusTo := none }
  else
    let fs := focusableIn els
    if shift then
      if active = fs.head? then { prevented := true, focusTo := fs.getLast? }
      else { prevented := false, focusTo := none }
    else
      if active = fs.getLast? then { prevented := true, focusTo := fs.head? }
      else { prevented := false, focusTo := none }

/-! ## Navbar component state and handlers (page.tsx lines 173-266) -/

/-- The component's own state: `isOpen` (line 197), `currentRoute` (line 198)
and the scroll-spy hook's `activeId` (line 95). -/
structure NavState where
  isOpen : Bool
  currentRoute : String
  activeScrollSpyId : String
deriving Repr, DecidableEq

/-- All `useState` initial values: closed panel, empty route, empty spy id. -/
def initialNavState : NavState where
  isOpen := false
  currentRoute := ""
  activeScrollSpyId := scrollSpyInitialId

/-- `const activeLink = enableScrollSpy ? activeScrollSpyId : currentRoute`
(page.tsx line 208). -/
def activeLink (cfg : ResolvedConfig) (s : NavState) : String :=
  if cfg.enableScrollSpy then s.activeScrollSpyId else s.currentRoute

/-- `const isActive = activeLink === link.href || activeLink === link.id`
(page.tsx lines 338-339 and 425-426). -/
def isActive (active : String) (l : NavLink) : Bool :=
  active == l.href || active == l.id

/-- `closeMenu` (page.tsx lines 247-250): sets the open flag false.  (It also
schedules refocusing the toggle button after 100 ms; that timer touches no
component state.) -/
def closeMenu (s : NavState) : NavState :=
  { s with isOpen := false }

/-- The Escape-key effect's handler (page.tsx lines 228-232): closes the menu
when the key is Escape and the panel is open, otherwise does nothing.  It
never reads the focus-trap setting. -/
def handleEscape (key : String) (s : NavState) : NavState :=
  if key == "Escape" && s.isOpen then closeMenu s else s

/-- If `pat` is a prefix of the character list, the remainder after it. -/
def stripPrefixChars : List Char → List Char → Option (List Char)
  | [], s => some s
  | _ :: _, [] => none
  | p :: ps, c :: cs => if p = c then stripPrefixChars ps cs else none

/-- Replace the leftmost occurrence of `pat` by `rep`, character-wise. -/
def replaceFirstChars (pat rep : List Char) : List Char → List Char
  | [] => []
  | c :: cs =>
      match stripPrefixChars pat (c :: cs) with
      | some rest => rep ++ rest
      | none => c :: replaceFirstChars pat rep cs

/-- JavaScript `String.prototype.replace` with a plain-string pattern replaces
only the first occurrence. -/
def replaceFirst (s pat rep : String) : String :=
  String.mk (replaceFirstChars pat.data rep.data s.data)

/-- `href.replace("#", "")` (page.tsx line 263). -/
def stripHash (href : String) : String :=
  replaceFirst href "#" ""

/-- The side effects a link click can perform besides the state update:
calling the caller's `onNavigate` and smooth-scrolling a section. -/
structure ClickEffects where
  navigatedTo : Option String
  scrolledTo : Option String
deriving Repr, DecidableEq

/-- `handleLinkClick` (page.tsx lines 253-266).  `hasOnNavigate` says whether
the caller supplied the `onNavigate` prop; `domIds` are the element ids
present in the document (`document.getElementById`).  Closes the menu when
`closeOnRouteChange` is set, records the href as the current route, then
either calls `onNavigate(href)`, or — only without a callback and with
scroll-spy enabled — scrolls the element `href.replace("#","")` into view if
it exists. -/
def handleLinkClick (cfg : ResolvedConfig) (hasOnNavigate : Bool)
    (domIds : List String) (href : String) (s : NavState) :
    NavState × ClickEffects :=
  let s1 := if cfg.closeOnRouteChange then closeMenu s else s
  let s2 := { s1 with currentRoute := href }
  let fx : ClickEffects :=
    if hasOnNavigate then { navigatedTo := some href, scrolledTo := none }
    else if cfg.enableScrollSpy then
      if domIds.contains (stripHash href) then
        { navigatedTo := none, scrolledTo := some (stripHash href) }
      else { navigatedTo := none, scrolledTo := none }
    else { navigatedTo := none, scrolledTo := none }
  (s2, fx)

/-- The route-tracking mount effect (page.tsx lines 239-244):
`setCurrentRoute(window.location.hash || links[0]?.href || "")`.  A `||`
falls through on the empty string and on an absent first link. -/
def initialRoute (hash : String) (links : List NavLink) : String :=
  if hash ≠ "" then hash
  else
    match links.head? with
    | some l => if l.href ≠ "" then l.href else ""
    | none => ""

/-! ## Server-side rendering (page.tsx lines 196-224) -/

/-- The rendering environment: whether a `window` global exists and, when it
does, what `matchMedia("(prefers-reduced-motion: reduce)").matches` returns. -/
structure BrowserEnv where
  hasWindow : Bool
  reducedMotion : Bool
deriving Repr, DecidableEq

/-- `typeof window !== "undefined" && window.matchMedia(...).matches`
(page.tsx lines 220-222): short-circuits to false without a window. -/
def prefersReducedMotion (env : BrowserEnv) : Bool :=
  env.hasWindow && env.reducedMotion

/-- Whether evaluating `prefersReducedMotion` reaches `window.matchMedia`:
only when the `typeof window` guard passes. -/
def matchMediaTouched (env : BrowserEnv) : Bool :=
  env.hasWindow

/-- What the first render of `Navbar` produces.  Effects have not run yet, so
every `useState` still holds its initial value. -/
structure InitialRender where
  isScrolled : Bool
  isOpen : Bool
  currentRoute : String
  duration : ℚ
  touchedMatchMedia : Bool
deriving Repr, DecidableEq

/-- The render path of `Navbar` before any effect fires: state from the
`useState` initials (lines 57, 95, 197-198), duration from line 224. -/
def renderInitial (cfg : ResolvedConfig) (env : BrowserEnv) : InitialRender where
  isScrolled := false
  isOpen := false
  currentRoute := ""
  duration := if prefersReducedMotion env then 0 else cfg.animateDuration / 1000
  touchedMatchMedia := matchMediaTouched env

/-! ## Concrete data from the example usage (page.tsx lines 461-479) -/

/-- `{ id: "hero", label: "Home", href: "#hero" }` (page.tsx line 475). -/
def heroLink : NavLink where
  id := "hero"
  label := "Home"
  href := "#hero"

/-- `{ id: "about", label: "About", href: "#about" }` (page.tsx line 476). -/
def aboutLink : NavLink where
  id := "about"
  label := "About"
  href := "#about"

/-- The two-link list used by the spec's worked example. -/
def exampleLinks : List NavLink := [heroLink, aboutLink]

/-- The `NavbarExample` configuration (page.tsx lines 461-472), resolved. -/
def exampleResolved : ResolvedConfig :=
  NavbarConfig.resolve
    { side := some NavSide.right
      width := some (NavWidth.responsive
        { base := some "100vw", md := some "80vw", lg := some "50vw" })
      initialBg := some "bg-transparent"
      scrolledBg := some "bg-white/95 shadow-md"
      scrollThreshold := some 20
      logoScale := some { initial := 1, scrolled := 92 / 100 }
      closeOnRouteChange := some true
      trapFocus := some true
      enableScrollSpy := some true
      mobileBreakpoint := some Breakpoint.md }

/-- A state with the panel open and all other state at its initial value. -/
def openState : NavState where
  isOpen := true
  currentRoute := ""
  activeScrollSpyId := scrollSpyInitialId

/-- The component state right after the route-tracking mount effect has run on
the example links, with the panel still closed. -/
def mountedExampleState (hash : String) : NavState :=
  { initialNavState with currentRoute := initialRoute hash exampleLinks }

/-- A body style with some pre-existing inline properties, used to exercise
the scroll lock. -/
def exampleBody : BodyStyle where
  overflow := "auto"
  paddingRight := "2px"
  others := [("margin", "0")]

/-- A `div` carrying `tabindex="-2"`: its tabindex attribute is present and
differs from `"-1"`, yet is negative. -/
def negTabDiv : DomElement where
  ref := 0
  tag := "div"
  tabindex := some (-2)

/-- An anchor with an href, as rendered for each nav link. -/
def anchorEl : DomElement where
  ref := 1
  tag := "a"
  href := some "#hero"

/-- A non-disabled button, like the panel's close button. -/
def buttonEl : DomElement where
  ref := 2
  tag := "button"

/-- A degenerate link whose id and href are both the empty string. -/
def emptyLink : NavLink where
  id := ""
  label := "Broken"
  href := ""

/-- A non-browser (server) rendering environment: no `window` global. -/
def ssrEnv : BrowserEnv where
  hasWindow := false
  reducedMotion := false

/-! ## Theorems -/

/-- The scroll-spy state after a report sequence equals the target of the
last intersecting report, or stays at the starting id when there is none. -/
theorem runSpy_eq_lastHit :
    ∀ (rs : List SpyReport) (activeId : String),
      runSpy activeId rs = (lastHit rs).getD activeId := by
  intro rs
  induction rs with
  | nil => intro a; rfl
  | cons r rs ih =>
      intro a
      show runSpy (spyStep a r) rs = (lastHit (r :: rs)).getD a
      rw [ih]
      cases h : lastHit rs with
      | some id => simp [lastHit, h]
      | none =>
          rcases r with ⟨tid, entry⟩
          cases entry with
          | none => simp [lastHit, h, spyStep]
          | some b => cases b <;> simp [lastHit, h, spyStep]

/-- Claim C1: the navbar is in the scrolled visual state (scrolled background,
reduced padding, scrolled logo scale) if and only if the scroll position
strictly exceeds the configured threshold; at the threshold itself it shows
the initial state. -/
theorem scrolled_state_iff_threshold :
    ∀ (cfg : ResolvedConfig) (p : ℚ),
      (useScrollState p cfg.scrollThreshold = true ↔ p > cfg.scrollThreshold) ∧
      navbarVisual cfg p =
        (if p > cfg.scrollThreshold then scrolledVisual cfg
         else initialVisual cfg) ∧
      navbarVisual cfg cfg.scrollThreshold = initialVisual cfg := by
  intro cfg p
  refine ⟨by simp [useScrollState], ?_, ?_⟩
  · by_cases h : p > cfg.scrollThreshold <;>
      simp [navbarVisual, useScrollState, h]
  · simp [navbarVisual, useScrollState]

/-- Witness for C1 at a concrete position above the default threshold. -/
theorem scrolled_state_iff_threshold_witness :
    useScrollState 21 resolvedDefault.scrollThreshold = true ∧
    navbarVisual resolvedDefault resolvedDefault.scrollThreshold =
      initialVisual resolvedDefault :=
  ⟨((scrolled_state_iff_threshold resolvedDefault 21).1).mpr
    (show (20 : ℚ) < 21 by norm_num),
   (scrolled_state_iff_threshold resolvedDefault 21).2.2⟩

/-- Claim C2: with the panel open and body-scroll locking configured, the
lock effect runs, sets body overflow to hidden and the right padding to the
measured scrollbar width, changes no other body style property, and its
cleanup restores exactly the prior overflow and padding. -/
theorem lock_body_scroll_sets_and_restores :
    ∀ (cfg : ResolvedConfig) (s : NavState) (b : BodyStyle) (iw cw : Int),
      s.isOpen = true → cfg.disableBodyScrollOnOpen = true →
      bodyLockRequested cfg.disableBodyScrollOnOpen s.isOpen = true ∧
      (useLockBodyScroll (bodyLockRequested cfg.disableBodyScrollOnOpen
        s.isOpen) b iw cw).1.overflow = "hidden" ∧
      (useLockBodyScroll (bodyLockRequested cfg.disableBodyScrollOnOpen
        s.isOpen) b iw cw).1.paddingRight = toString (iw - cw) ++ "px" ∧
      (useLockBodyScroll (bodyLockRequested cfg.disableBodyScrollOnOpen
        s.isOpen) b iw cw).1.others = b.others ∧
      lockCleanup
        (useLockBodyScroll (bodyLockRequested cfg.disableBodyScrollOnOpen
          s.isOpen) b iw cw).2
        (useLockBodyScroll (bodyLockRequested cfg.disableBodyScrollOnOpen
          s.isOpen) b iw cw).1 = b := by
  intro cfg s b iw cw hOpen hCfg
  simp [bodyLockRequested, hOpen, hCfg, useLockBodyScroll, lockCleanup]

/-- Witness for C2: a concrete open state, default config and body style. -/
theorem lock_body_scroll_sets_and_restores_witness :
    lockCleanup
      (useLockBodyScroll (bodyLockRequested
        resolvedDefault.disableBodyScrollOnOpen openState.isOpen)
        exampleBody 1000 985).2
      (useLockBodyScroll (bodyLockRequested
        resolvedDefault.disableBodyScrollOnOpen openState.isOpen)
        exampleBody 1000 985).1 = exampleBody :=
  (lock_body_scroll_sets_and_restores resolvedDefault openState exampleBody
    1000 985 rfl rfl).2.2.2.2

/-- Claim C5: after any sequence of observer reports the active id is the
target of the last intersecting report (unchanged when there is none), and a
single report with an absent or non-intersecting entry changes nothing while
an intersecting one sets its target. -/
theorem scroll_spy_last_intersecting_wins :
    ∀ (activeId : String) (rs : List SpyReport),
      runSpy activeId rs = (lastHit rs).getD activeId ∧
      (∀ (a id : String), spyStep a { targetId := id, entry := none } = a) ∧
      (∀ (a id : String),
        spyStep a { targetId := id, entry := some false } = a) ∧
      (∀ (a id : String),
        spyStep a { targetId := id, entry := some true } = id) := by
  intro activeId rs
  exact ⟨runSpy_eq_lastHit rs activeId,
    fun a id => rfl, fun a id => rfl, fun a id => rfl⟩

/-- Claim C7: Escape with the panel open closes it (the handler reads no
focus-trap setting, as `handleEscape` takes none); Escape with the panel
closed returns the state unchanged. -/
theorem escape_closes_open_panel :
    ∀ (key : String) (s : NavState),
      (s.isOpen = true →
        handleEscape "Escape" s = closeMenu s ∧
        (handleEscape "Escape" s).isOpen = false) ∧
      (s.isOpen = false → handleEscape key s = s) := by
  intro key s
  constructor
  · intro h
    simp [handleEscape, closeMenu, h]
  · intro h
    simp [handleEscape, h]

/-- Witness for C7: Escape closes the concrete open state and leaves the
closed initial state untouched. -/
theorem escape_closes_open_panel_witness :
    handleEscape "Escape" openState = closeMenu openState ∧
    handleEscape "Escape" initialNavState = initialNavState :=
  ⟨((escape_closes_open_panel "Escape" openState).1 rfl).1,
   (escape_closes_open_panel "Escape" initialNavState).2 rfl⟩

/-- Claim C9: rendering without a `window` global yields the default state —
not scrolled, panel closed, empty current route — with the animation duration
computed from the configured value without touching `window.matchMedia`. -/
theorem ssr_render_default_state :
    ∀ (cfg : ResolvedConfig) (env : BrowserEnv),
      env.hasWindow = false →
      renderInitial cfg env =
        { isScrolled := false
          isOpen := false
          currentRoute := ""
          duration := cfg.animateDuration / 1000
          touchedMatchMedia := false } := by
  intro cfg env h
  simp [renderInitial, prefersReducedMotion, matchMediaTouched, h]

/-- Witness for C9: the default configuration rendered in a server
environment. -/
theorem ssr_render_default_state_witness :
    renderInitial resolvedDefault ssrEnv =
      { isScrolled := false
        isOpen := false
        currentRoute := ""
        duration := resolvedDefault.animateDuration / 1000
        touchedMatchMedia := false } :=
  ssr_render_default_state resolvedDefault ssrEnv rfl

/-- Claim C3: a click calls the caller's navigation callback with the href
when it is present and never smooth-scrolls then; a section is scrolled into
view only without a callback and with scroll-spy enabled (and it is, when the
target element exists); with neither, no effect fires. -/
theorem link_click_dispatch :
    ∀ (cfg : ResolvedConfig) (hasOnNavigate : Bool) (domIds : List String)
      (href : String) (s : NavState),
      (hasOnNavigate = true →
        (handleLinkClick cfg hasOnNavigate domIds href s).2 =
          { navigatedTo := some href, scrolledTo := none }) ∧
      ((handleLinkClick cfg hasOnNavigate domIds href s).2.scrolledTo.isSome =
          true →
        hasOnNavigate = false ∧ cfg.enableScrollSpy = true) ∧
      (hasOnNavigate = false → cfg.enableScrollSpy = true →
        domIds.contains (stripHash href) = true →
        (handleLinkClick cfg hasOnNavigate domIds href s).2 =
          { navigatedTo := none, scrolledTo := some (stripHash href) }) ∧
      (hasOnNavigate = false → cfg.enableScrollSpy = false →
        (handleLinkClick cfg hasOnNavigate domIds href s).2 =
          { navigatedTo := none, scrolledTo := none }) := by
  intro cfg hasNav domIds href s
  refine ⟨?_, ?_, ?_, ?_⟩
  · intro h
    simp [handleLinkClick, h]
  · intro h
    cases hn : hasNav with
    | true => simp [handleLinkClick, hn] at h
    | false =>
        cases hs : cfg.enableScrollSpy with
        | true => exact ⟨rfl, rfl⟩
        | false => simp [handleLinkClick, hn, hs] at h
  · intro h1 h2 h3
    replace h3 := List.mem_of_elem_eq_true h3
    simp [handleLinkClick, h1, h2, h3]
  · intro h1 h2
    simp [handleLinkClick, h1, h2]

/-- Witness for C3: in the example configuration (scroll-spy on, no
callback), clicking `#about` scrolls the `about` section into view. -/
theorem link_click_dispatch_witness :
    (handleLinkClick exampleResolved false ["about"] "#about"
      initialNavState).2 =
      { navigatedTo := none, scrolledTo := some (stripHash "#about") } :=
  (link_click_dispatch exampleResolved false ["about"] "#about"
    initialNavState).2.2.1 rfl rfl (by decide)

/-- Counterexample to claim C4 as stated: in the example configuration
(scroll-spy enabled, close-on-navigate enabled), clicking the `#about` link
from the open initial state closes the panel but leaves the active-link
indicator at the empty scroll-spy id, so the clicked link is not rendered
active. -/
theorem click_scrollspy_indicator_counterexample :
    exampleResolved.closeOnRouteChange = true ∧
    (handleLinkClick exampleResolved false ["about"] "#about"
      openState).1.isOpen = false ∧
    activeLink exampleResolved
      (handleLinkClick exampleResolved false ["about"] "#about"
        openState).1 ≠ "#about" ∧
    activeLink exampleResolved
      (handleLinkClick exampleResolved false ["about"] "#about"
        openState).1 ≠ "about" ∧
    isActive
      (activeLink exampleResolved
        (handleLinkClick exampleResolved false ["about"] "#about"
          openState).1) aboutLink = false := by
  decide

/-- Claim C4 amended: with close-on-navigate enabled, a click closes the
panel and records the href as the current route; with scroll-spy disabled the
active-link indicator therefore becomes the clicked link, while with
scroll-spy enabled the indicator stays at the scroll-spy id, unchanged by the
click itself. -/
theorem link_click_close_and_route :
    ∀ (cfg : ResolvedConfig) (hasOnNavigate : Bool) (domIds : List String)
      (href : String) (s : NavState),
      cfg.closeOnRouteChange = true →
      (handleLinkClick cfg hasOnNavigate domIds href s).1.isOpen = false ∧
      (handleLinkClick cfg hasOnNavigate domIds href s).1.currentRoute =
        href ∧
      (cfg.enableScrollSpy = false →
        activeLink cfg
          (handleLinkClick cfg hasOnNavigate domIds href s).1 = href) ∧
      (cfg.enableScrollSpy = true →
        activeLink cfg
          (handleLinkClick cfg hasOnNavigate domIds href s).1 =
          s.activeScrollSpyId) := by
  intro cfg hasNav domIds href s h
  refine ⟨by simp [handleLinkClick, closeMenu, h],
    by simp [handleLinkClick, closeMenu, h], ?_, ?_⟩
  · intro hs
    simp [handleLinkClick, closeMenu, activeLink, h, hs]
  · intro hs
    simp [handleLinkClick, closeMenu, activeLink, h, hs]

/-- Witness for C4 amended: the default configuration (scroll-spy off),
clicking `#about` from the open state. -/
theorem link_click_close_and_route_witness :
    (handleLinkClick resolvedDefault false [] "#about"
      openState).1.isOpen = false ∧
    activeLink resolvedDefault
      (handleLinkClick resolvedDefault false [] "#about" openState).1 =
      "#about" :=
  ⟨(link_click_close_and_route resolvedDefault false [] "#about" openState
      rfl).1,
   (link_click_close_and_route resolvedDefault false [] "#about" openState
      rfl).2.2.1 rfl⟩

/-- Claim C6: with scroll-spy disabled the route set at mount is the
location hash when one is present, else the first link's href (when that href
is non-empty); on the worked two-link example, no hash renders `hero` active,
and a `#about` hash followed by clicking `#about` renders `about` active. -/
theorem active_link_default_from_hash :
    ∀ (links : List NavLink) (hash : String) (l : NavLink),
      (hash ≠ "" → initialRoute hash links = hash) ∧
      (links.head? = some l → l.href ≠ "" →
        initialRoute "" links = l.href) ∧
      activeLink resolvedDefault (mountedExampleState "") = heroLink.href ∧
      isActive (activeLink resolvedDefault (mountedExampleState ""))
        heroLink = true ∧
      isActive (activeLink resolvedDefault (mountedExampleState ""))
        aboutLink = false ∧
      activeLink resolvedDefault (mountedExampleState "#about") =
        "#about" ∧
      isActive (activeLink resolvedDefault (mountedExampleState "#about"))
        aboutLink = true ∧
      activeLink resolvedDefault
        (handleLinkClick resolvedDefault false [] "#about"
          (mountedExampleState "#about")).1 = "#about" ∧
      isActive
        (activeLink resolvedDefault
          (handleLinkClick resolvedDefault false [] "#about"
            (mountedExampleState "#about")).1) aboutLink = true := by
  intro links hash l
  refine ⟨?_, ?_, by decide, by decide, by decide, by decide, by decide,
    by decide, by decide⟩
  · intro h
    simp [initialRoute, h]
  · intro h1 h2
    simp [initialRoute, h1, h2]

/-- Witness for C6: the hash and first-link defaults at concrete inputs. -/
theorem active_link_default_from_hash_witness :
    initialRoute "#about" exampleLinks = "#about" ∧
    initialRoute "" exampleLinks = heroLink.href :=
  ⟨(active_link_default_from_hash exampleLinks "#about" heroLink).1
      (by decide),
   (active_link_default_from_hash exampleLinks "" heroLink).2.1 rfl
      (by decide)⟩

/-- Counterexample to claim C8 as stated: the focusable-element selector is
`[tabindex]:not([tabindex="-1"])`, so a `div` with `tabindex="-2"` — a
negative tabindex, and none of the other listed kinds — is treated as
focusable, and opening a panel containing only it moves focus to it. -/
theorem focusable_negative_tabindex_counterexample :
    negTabDiv.tag = "div" ∧
    negTabDiv.href = none ∧
    negTabDiv.tabindex = some (-2) ∧
    (-2 : Int) < 0 ∧
    isFocusable negTabDiv = true ∧
    openFocus [negTabDiv] = some negTabDiv := by
  decide

/-- Claim C8 amended: with the trap active, Tab on the last focusable element
is intercepted and wraps focus to the first, Shift+Tab on the first wraps to
the last, other keys and positions are untouched, opening focuses the first
focusable element, and an element is focusable exactly when it is a link with
an href, a non-disabled button, a textarea, an input, a select, or carries a
tabindex attribute other than -1. -/
theorem focus_trap_wraps :
    ∀ (els : List DomElement) (active : Option DomElement) (key : String)
      (shift : Bool) (el : DomElement),
      openFocus els = (focusableIn els).head? ∧
      handleTab els (focusableIn els).getLast? "Tab" false =
        { prevented := true, focusTo := (focusableIn els).head? } ∧
      handleTab els (focusableIn els).head? "Tab" true =
        { prevented := true, focusTo := (focusableIn els).getLast? } ∧
      (key ≠ "Tab" → handleTab els active key shift =
        { prevented := false, focusTo := none }) ∧
      (active ≠ (focusableIn els).getLast? →
        handleTab els active "Tab" false =
          { prevented := false, focusTo := none }) ∧
      (active ≠ (focusableIn els).head? →
        handleTab els active "Tab" true =
          { prevented := false, focusTo := none }) ∧
      (isFocusable el = true ↔
        (el.tag = "a" ∧ el.href.isSome = true) ∨
        (el.tag = "button" ∧ el.disabled = false) ∨
        el.tag = "textarea" ∨ el.tag = "input" ∨ el.tag = "select" ∨
        (el.tabindex.isSome = true ∧ el.tabindex ≠ some (-1))) := by
  intro els active key shift el
  refine ⟨rfl, ?_, ?_, ?_, ?_, ?_, ?_⟩
  · simp [handleTab]
  · simp [handleTab]
  · intro h
    simp [handleTab, h]
  · intro h
    simp [handleTab, h]
  · intro h
    simp [handleTab, h]
  · simp only [isFocusable, Bool.or_eq_true, Bool.and_eq_true, beq_iff_eq,
      bne_iff_ne, Bool.not_eq_true', Option.isSome_iff_exists, ne_eq]
    tauto

/-- Witness for C8 amended: a panel with an anchor and a button; a non-Tab
key is ignored and Tab on the last focusable element wraps to the first. -/
theorem focus_trap_wraps_witness :
    handleTab [anchorEl, buttonEl] none "Enter" false =
      { prevented := false, focusTo := none } ∧
    handleTab [anchorEl, buttonEl]
      (focusableIn [anchorEl, buttonEl]).getLast? "Tab" false =
      { prevented := true
        focusTo := (focusableIn [anchorEl, buttonEl]).head? } :=
  ⟨(focus_trap_wraps [anchorEl, buttonEl] none "Enter" false
      negTabDiv).2.2.2.1 (by decide),
   (focus_trap_wraps [anchorEl, buttonEl] none "Enter" false
      negTabDiv).2.1⟩

/-- Counterexample to claim C10 as stated: with scroll-spy enabled and the
active id still at its initial empty string, a link whose id and href are
both empty compares equal to the empty active identifier and is rendered
active before any observer callback has fired. -/
theorem empty_link_active_initially_counterexample :
    exampleResolved.enableScrollSpy = true ∧
    initialNavState.activeScrollSpyId = scrollSpyInitialId ∧
    isActive (activeLink exampleResolved initialNavState) emptyLink =
      true := by
  decide

/-- Claim C10 amended: the scroll-spy active id starts as the empty string;
with scroll-spy enabled, before any observer callback no link with a
non-empty href and id is rendered active; and a link is rendered active
exactly when the active identifier equals its href or its id. -/
theorem scroll_spy_initially_inactive :
    ∀ (cfg : ResolvedConfig) (s : NavState) (l : NavLink) (active : String),
      scrollSpyInitialId = "" ∧
      (cfg.enableScrollSpy = true →
        s.activeScrollSpyId = scrollSpyInitialId →
        l.href ≠ "" → l.id ≠ "" →
        isActive (activeLink cfg s) l = false) ∧
      (isActive active l = true ↔ (active = l.href ∨ active = l.id)) := by
  intro cfg s l active
  refine ⟨rfl, ?_, by simp [isActive]⟩
  intro h1 h2 h3 h4
  have hempty : activeLink cfg s = "" := by
    simp [activeLink, h1, h2, scrollSpyInitialId]
  rw [hempty, isActive, Bool.or_eq_false_iff]
  exact ⟨beq_eq_false_iff_ne.mpr (Ne.symm h3),
    beq_eq_false_iff_ne.mpr (Ne.symm h4)⟩

/-- Witness for C10 amended: in the example configuration, before any
observer report the `about` link is not rendered active. -/
theorem scroll_spy_initially_inactive_witness :
    isActive (activeLink exampleResolved initialNavState) aboutLink =
      false :=
  (scroll_spy_initially_inactive exampleResolved initialNavState aboutLink
    "").2.1 rfl rfl (by decide) (by decide)

end NavbarGallery
